import Mathlib

/-!
# Verification of the Smart RFP multi-agent orchestrator

Shallow embedding of the orchestration core of the A2A-MCP-Multiagent-Smart-RFP
repository (Python) in Lean 4, and proofs/refutations of the frozen claims
about it.

Embedded components:
* `src/orchestrator/orchestrator.py` — `_resolve_schema_refs`,
  `_execute_tool_call`, `_call_claude`, and the agentic loop / auto-export
  logic of `Orchestrator.chat`;
* `src/orchestrator/inprocess_pool.py` — `InProcessAgentPool.call_agent_tool`
  and the static tool registry;
* `src/orchestrator/mcp_client.py` — `MCPAgentConnection.call_tool` and
  `MCPAgentPool.call_agent_tool`;
* `src/agents/knowledge_base/tools.py` — `search_tech_stack`;
* `src/agents/client_research/models.py` — the Pydantic input constraints
  for `SearchCompanyInput` / `AnalyzeRFPInput`;
* `src/agents/client_research/tools.py` — `analyze_with_claude` retry loop.

Python `dict`s are modelled as ordered association lists with distinct keys
(Python 3.7+ dicts preserve insertion order), JSON values as the inductive
`Json`, and Python exceptions as the `Except.error` branch of `Except`.
-/

/-- JSON values, the data manipulated by `_resolve_schema_refs` and the tool
boundary.  An object is an insertion-ordered association list, mirroring a
Python `dict`. -/
inductive Json where
  | null : Json
  | bool : Bool → Json
  | num : Int → Json
  | str : String → Json
  | arr : List Json → Json
  | obj : List (String × Json) → Json

namespace Json

/-- Python `k in obj` / `obj.get(k)` on a dict (first binding wins; in a real
dict keys are distinct). -/
def lookupKey (k : String) : List (String × Json) → Option Json
  | [] => none
  | (k', v) :: rest => if k' = k then some v else lookupKey k rest

/-- Python `k in obj` on a dict. -/
def hasKey (k : String) (fields : List (String × Json)) : Bool :=
  (lookupKey k fields).isSome

/-- Python assignment `obj[k] = v` on a dict: replaces the value in place if the key is
present, otherwise appends the new binding at the end (insertion order). -/
def setKey (k : String) (v : Json) : List (String × Json) → List (String × Json)
  | [] => [(k, v)]
  | (k', v') :: rest =>
      if k' = k then (k, v) :: rest else (k', v') :: setKey k v rest

/-- Effect of Python `obj.pop(k, default)` on the dict: remove the first
binding of `k` if present. -/
def removeKey (k : String) : List (String × Json) → List (String × Json)
  | [] => []
  | (k', v') :: rest =>
      if k' = k then rest else (k', v') :: removeKey k rest

end Json

/-! ## Python string helpers -/

/-- Python `needle in hay` on the underlying character lists:
some suffix of `hay` starts with `needle` (the empty needle is contained in
every string). -/
def listContainsSub (needle : List Char) : List Char → Bool
  | [] => needle.isEmpty
  | c :: rest => List.isPrefixOf needle (c :: rest) || listContainsSub needle rest

/-- Python `needle in hay` on strings. -/
def strContainsSub (hay needle : String) : Bool :=
  listContainsSub needle.toList hay.toList

/-- Python `s.lower()` (ASCII case folding, which is all the source uses). -/
def pyLower (s : String) : String :=
  String.mk (s.toList.map Char.toLower)

/-- Python `s.split(sep, 1)` restricted to a non-empty separator: split at the
first occurrence of `sep`, if any. -/
def splitOnceList (sep : List Char) : List Char → List (List Char)
  | [] => [[]]
  | c :: rest =>
      if List.isPrefixOf sep (c :: rest) then
        [[], (c :: rest).drop sep.length]
      else
        match splitOnceList sep rest with
        | [] => [[c]]
        | first :: others => (c :: first) :: others

/-- Python `s.split(sep, 1)` on strings (non-empty separator). -/
def strSplitOnce (s sep : String) : List String :=
  (splitOnceList sep.toList s.toList).map String.mk

/-- Python `s.count(sub)`: number of non-overlapping occurrences, scanning
left to right.  The `skip` counter carries how many characters of a match
found earlier are still to be consumed, which keeps the scan structural. -/
def countOccurAux (sub : List Char) : List Char → Nat → Nat
  | [], _ => 0
  | c :: rest, 0 =>
      if !sub.isEmpty && List.isPrefixOf sub (c :: rest) then
        1 + countOccurAux sub rest (sub.length - 1)
      else
        countOccurAux sub rest 0
  | _ :: rest, skip + 1 => countOccurAux sub rest skip

/-- Python `s.count(sub)` on strings (non-empty `sub`). -/
def strCountOccur (s sub : String) : Nat :=
  countOccurAux sub.toList s.toList 0

example : strContainsSub "hello world" "lo w" = true := by decide
example : strContainsSub "hello" "xyz" = false := by decide
example : pyLower "DocX Word" = "docx word" := by decide
example : strSplitOnce "a__b__c" "__" = ["a", "b__c"] := by decide
example : strSplitOnce "ab" "__" = ["ab"] := by decide
example : strCountOccur "a__b__c" "__" = 2 := by decide

/-! ## Schema translation — `Orchestrator._resolve_schema_refs`
(src/orchestrator/orchestrator.py, lines 118-153) -/

/-- Test against the literal dict `{"type": "null"}` that the source filters
out of `anyOf` alternatives (Python dict equality; a one-key dict has a unique
ordered representation). -/
def isNullSchema : Json → Bool
  | .obj [(k, .str v)] => k = "type" && v = "null"
  | _ => false

/-- Python `ref_path.split("/")[-1]`: the part of the string after the last
slash (the whole string when there is none). -/
def refLastComponent (s : String) : String :=
  String.mk (((s.toList.reverse).takeWhile (fun c => c ≠ '/')).reverse)

/-- Python iteration over the value stored under `"anyOf"`: a list yields its
items, a dict its keys, a string its one-character substrings; other values
are not iterable (a `TypeError` in Python). -/
def anyOfItems : Json → Option (List Json)
  | .arr elems => some elems
  | .obj fields => some (fields.map (fun kv => Json.str kv.1))
  | .str s => some (s.toList.map (fun c => Json.str (String.mk [c])))
  | _ => none

/-- The metadata keys the source copies onto a collapsed `anyOf` alternative,
in iteration order: `("description", "default", "title")`. -/
def metadataKeys : List String := ["description", "default", "title"]

/-- Python `resolved[key] = obj[key]` for each metadata key present on the
union object.  Assigning to a non-dict raises `TypeError` in Python. -/
def copyMetadata (fields : List (String × Json)) : List String → Json → Except String Json
  | [], r => .ok r
  | key :: keys, r =>
      match Json.lookupKey key fields with
      | none => copyMetadata fields keys r
      | some v =>
          match r with
          | .obj rf => copyMetadata fields keys (.obj (Json.setKey key v rf))
          | _ => .error "TypeError: item assignment on non-dict"

/-- The inner `_resolve` closure of `Orchestrator._resolve_schema_refs`.
`defs` is the popped top-level `$defs` table.  `fuel` models the Python
recursion limit: every recursive `_resolve` call consumes one unit, and
running out is a `RecursionError` (an uncaught Python exception, hence
`Except.error`).  All other `Except.error` branches are likewise positions
where the Python code would raise. -/
def resolveJ (defs : List (String × Json)) : Nat → Json → Except String Json
  | 0, _ => .error "RecursionError: maximum recursion depth exceeded"
  | fuel + 1, .obj fields =>
      match Json.lookupKey "$ref" fields with
      | some refVal =>
          match refVal with
          | .str refPath =>
              match Json.lookupKey (refLastComponent refPath) defs with
              | some d => resolveJ defs fuel d
              | none => .ok (.obj fields)
          | _ => .error "AttributeError: split on a non-string"
      | none =>
          let fallback : Except String Json := do
            let rf ← fields.mapM (fun kv => do
              let v ← resolveJ defs fuel kv.2
              pure (kv.1, v))
            pure (Json.obj rf)
          match Json.lookupKey "anyOf" fields with
          | none => fallback
          | some av =>
              match anyOfItems av with
              | none => .error "TypeError: anyOf value is not iterable"
              | some items =>
                  match items.filter (fun s => !isNullSchema s) with
                  | [t] => do
                      let r ← resolveJ defs fuel t
                      copyMetadata fields metadataKeys r
                  | _ => fallback
  | fuel + 1, .arr elems => do
      let es ← elems.mapM (resolveJ defs fuel)
      pure (Json.arr es)
  | _ + 1, j => .ok j

/-- Python default `sys.getrecursionlimit()`, the depth at which the
recursive `_resolve` raises `RecursionError`. -/
def pythonRecursionLimit : Nat := 1000

/-- `Orchestrator._resolve_schema_refs`: pop the top-level `$defs` table,
then run `_resolve` on the remainder of the schema.  Popping from a non-dict
raises in Python; a `$defs` value that is not itself a dict is treated as the
empty table (such a value could never be indexed by a ref name anyway). -/
def resolveSchemaRefs : Json → Except String Json
  | .obj fields =>
      let defs := match Json.lookupKey "$defs" fields with
        | some (.obj dfs) => dfs
        | _ => []
      resolveJ defs pythonRecursionLimit (.obj (Json.removeKey "$defs" fields))
  | _ => .error "TypeError: pop on a non-dict schema"

example : resolveSchemaRefs (.obj [("type", .str "object")])
    = .ok (.obj [("type", .str "object")]) := rfl
example : resolveSchemaRefs
      (.obj [("$ref", .str "#/$defs/Fmt"),
             ("$defs", .obj [("Fmt", .obj [("type", .str "string")])])])
    = .ok (.obj [("type", .str "string")]) := rfl
example : resolveSchemaRefs
      (.obj [("anyOf", .arr [.obj [("type", .str "integer")],
                             .obj [("type", .str "null")]]),
             ("default", .null)])
    = .ok (.obj [("type", .str "integer"), ("default", .null)]) := rfl

/-- Schemas with no `$ref` key, no `anyOf` key and no `$defs` key anywhere:
the "no references and no unions" round-trip inputs of the spec.  The fuel
argument bounds the nesting depth exactly as it does in `resolveJ`, so a
schema that is plain at fuel `n` is fully handled by `resolveJ` at fuel `n`. -/
def plainB : Nat → Json → Bool
  | 0, _ => false
  | fuel + 1, .arr elems => elems.all (fun e => plainB fuel e)
  | fuel + 1, .obj fields =>
      !Json.hasKey "$ref" fields && !Json.hasKey "anyOf" fields &&
      !Json.hasKey "$defs" fields &&
      fields.all (fun kv => plainB fuel kv.2)
  | _ + 1, _ => true

example : plainB 3 (.obj [("type", .str "object"),
    ("properties", .obj [("a", .obj [("type", .str "string")])])]) = false := by decide
example : plainB 4 (.obj [("type", .str "object"),
    ("properties", .obj [("a", .obj [("type", .str "string")])])]) = true := by decide
example : plainB 1000 (.obj [("anyOf", .arr [])]) = false := by decide

/-! ### Identity of the translation on plain schemas -/

theorem Json.lookupKey_eq_none_of_hasKey_false {k : String}
    {fields : List (String × Json)} (h : Json.hasKey k fields = false) :
    Json.lookupKey k fields = none := by
  cases hl : Json.lookupKey k fields with
  | none => rfl
  | some v => rw [Json.hasKey, hl] at h; simp at h

theorem Json.removeKey_of_hasKey_false {k : String} :
    ∀ {fields : List (String × Json)}, Json.hasKey k fields = false →
    Json.removeKey k fields = fields := by
  intro fields h
  induction fields with
  | nil => rfl
  | cons kv rest ih =>
    rw [Json.hasKey, Json.lookupKey] at h
    by_cases hk : kv.1 = k
    · rw [if_pos hk] at h; simp at h
    · rw [if_neg hk] at h
      show Json.removeKey k (kv :: rest) = kv :: rest
      rw [Json.removeKey]
      simp only [hk, if_false]
      rw [ih h]

theorem mapM_resolve_arr {defs : List (String × Json)} {fuel : Nat} :
    ∀ {elems : List Json}, (∀ e ∈ elems, resolveJ defs fuel e = .ok e) →
    elems.mapM (resolveJ defs fuel) = Except.ok elems := by
  intro elems h
  induction elems with
  | nil => rfl
  | cons e rest ih =>
    rw [List.mapM_cons, h e (List.mem_cons_self e rest),
      ih (fun x hx => h x (List.mem_cons_of_mem _ hx))]
    rfl

theorem mapM_resolve_fields {defs : List (String × Json)} {fuel : Nat} :
    ∀ {fields : List (String × Json)},
    (∀ kv ∈ fields, resolveJ defs fuel kv.2 = .ok kv.2) →
    (fields.mapM (fun kv => do
        let v ← resolveJ defs fuel kv.2
        pure (kv.1, v)) : Except String _) = Except.ok fields := by
  intro fields h
  induction fields with
  | nil => rfl
  | cons kv rest ih =>
    rw [List.mapM_cons, h kv (List.mem_cons_self kv rest),
      ih (fun x hx => h x (List.mem_cons_of_mem _ hx))]
    rfl

/-- On a plain schema (no refs, unions or defs tables anywhere, nesting within
the fuel bound) the `_resolve` worker is the identity, for any defs table. -/
theorem resolveJ_plain (defs : List (String × Json)) :
    ∀ (fuel : Nat) (s : Json), plainB fuel s = true → resolveJ defs fuel s = .ok s := by
  intro fuel
  induction fuel with
  | zero => intro s h; simp [plainB] at h
  | succ fuel ih =>
    intro s h
    match s with
    | .null | .bool _ | .num _ | .str _ => rfl
    | .arr elems =>
      rw [plainB, List.all_eq_true] at h
      rw [resolveJ, mapM_resolve_arr (fun e he => ih e (h e he))]
      rfl
    | .obj fields =>
      rw [plainB] at h
      simp only [Bool.and_eq_true, Bool.not_eq_true', List.all_eq_true] at h
      obtain ⟨⟨⟨h1, h2⟩, h3⟩, h4⟩ := h
      rw [resolveJ, Json.lookupKey_eq_none_of_hasKey_false h1,
        Json.lookupKey_eq_none_of_hasKey_false h2]
      rw [mapM_resolve_fields (fun kv hkv => ih kv.2 (h4 kv hkv))]
      rfl

theorem plainB_obj_parts {fuel : Nat} {fields : List (String × Json)}
    (h : plainB (fuel + 1) (.obj fields) = true) :
    Json.hasKey "$ref" fields = false ∧ Json.hasKey "anyOf" fields = false ∧
    Json.hasKey "$defs" fields = false := by
  rw [plainB] at h
  simp only [Bool.and_eq_true, Bool.not_eq_true'] at h
  exact ⟨h.1.1.1, h.1.1.2, h.1.2⟩

/-- On a plain top-level schema the whole translation is the identity. -/
theorem resolveSchemaRefs_plain {fields : List (String × Json)}
    (h : plainB pythonRecursionLimit (.obj fields) = true) :
    resolveSchemaRefs (.obj fields) = .ok (.obj fields) := by
  have hlim : pythonRecursionLimit = 999 + 1 := rfl
  obtain ⟨h1, h2, h3⟩ := plainB_obj_parts (hlim ▸ h)
  simp only [resolveSchemaRefs, Json.lookupKey_eq_none_of_hasKey_false h3,
    Json.removeKey_of_hasKey_false h3]
  exact resolveJ_plain [] pythonRecursionLimit _ h

/-- Collapsing an optional-of-T union copies the description, default and
title metadata of the union object onto the collapsed alternative. -/
theorem resolveJ_collapse {defs : List (String × Json)} {fuel : Nat}
    {t : List (String × Json)} {d df ti : Json}
    (hplain : plainB fuel (.obj t) = true)
    (hnull : isNullSchema (.obj t) = false) :
    resolveJ defs (fuel + 1)
      (.obj [("anyOf", .arr [.obj t, .obj [("type", .str "null")]]),
             ("description", d), ("default", df), ("title", ti)])
      = .ok (.obj (Json.setKey "title" ti (Json.setKey "default" df
          (Json.setKey "description" d t)))) := by
  rw [resolveJ]
  simp [Json.lookupKey, anyOfItems, metadataKeys, copyMetadata,
    List.filter_cons, hnull, resolveJ_plain defs fuel _ hplain,
    show isNullSchema (Json.obj [("type", Json.str "null")]) = true from rfl]
  rfl

/-- C2: the claim fails on the code.  At concrete inputs: (1) a `$ref` whose
target is missing from the top-level `$defs` table survives translation, so
the output can contain unresolved cross-references; (2) an `anyOf` with two
non-null alternatives plus a null alternative is returned unchanged, so the
output can contain nullable unions; (3) a resolved definition can itself
carry a `$defs` table that surfaces at top level, making a second translation
differ from the first (not idempotent); (4) a schema with no references and
no unions but with an unused `$defs` table is not returned unchanged (the
table is popped). -/
theorem schema_translation_counterexample :
    (resolveSchemaRefs (.obj [("$ref", .str "#/$defs/Missing")])
        = .ok (.obj [("$ref", .str "#/$defs/Missing")]))
  ∧ (resolveSchemaRefs
        (.obj [("anyOf", .arr [.obj [("type", .str "integer")],
                               .obj [("type", .str "string")],
                               .obj [("type", .str "null")]])])
      = .ok (.obj [("anyOf", .arr [.obj [("type", .str "integer")],
                                   .obj [("type", .str "string")],
                                   .obj [("type", .str "null")]])]))
  ∧ (resolveSchemaRefs
        (.obj [("$ref", .str "#/$defs/A"),
               ("$defs", .obj [("A", .obj
                 [("$defs", .obj [("B", .obj [("type", .str "integer")])]),
                  ("properties", .obj [("x", .obj [("$ref", .str "#/$defs/B")])])])])])
      = .ok (.obj
          [("$defs", .obj [("B", .obj [("type", .str "integer")])]),
           ("properties", .obj [("x", .obj [("$ref", .str "#/$defs/B")])])])
    ∧ resolveSchemaRefs
        (.obj [("$defs", .obj [("B", .obj [("type", .str "integer")])]),
               ("properties", .obj [("x", .obj [("$ref", .str "#/$defs/B")])])])
      = .ok (.obj [("properties", .obj [("x", .obj [("type", .str "integer")])])])
    ∧ (Json.obj [("$defs", .obj [("B", .obj [("type", .str "integer")])]),
                 ("properties", .obj [("x", .obj [("$ref", .str "#/$defs/B")])])]
        ≠ .obj [("properties", .obj [("x", .obj [("type", .str "integer")])])]))
  ∧ (resolveSchemaRefs
        (.obj [("$defs", .obj [("Unused", .obj [("type", .str "string")])]),
               ("type", .str "object")])
      = .ok (.obj [("type", .str "object")])
    ∧ (Json.obj [("$defs", .obj [("Unused", .obj [("type", .str "string")])]),
                 ("type", .str "object")]
        ≠ .obj [("type", .str "object")])) :=
  ⟨rfl, rfl, ⟨rfl, rfl, by simp⟩, ⟨rfl, by simp⟩⟩

/-- C2 (amended): the translation is the identity on schemas that contain no
`$ref`, no `anyOf` and no `$defs` key anywhere (within the recursion limit),
and collapsing an optional-of-T union with exactly one non-null alternative
preserves the description, default and title metadata attached to the union,
in that iteration order. -/
theorem schema_translation_amended :
    (∀ fields : List (String × Json),
      plainB pythonRecursionLimit (Json.obj fields) = true →
      resolveSchemaRefs (Json.obj fields) = .ok (Json.obj fields))
  ∧ (∀ (defs : List (String × Json)) (fuel : Nat)
      (t : List (String × Json)) (d df ti : Json),
      plainB fuel (Json.obj t) = true → isNullSchema (Json.obj t) = false →
      resolveJ defs (fuel + 1)
        (.obj [("anyOf", .arr [.obj t, .obj [("type", .str "null")]]),
               ("description", d), ("default", df), ("title", ti)])
        = .ok (.obj (Json.setKey "title" ti (Json.setKey "default" df
            (Json.setKey "description" d t))))) :=
  ⟨fun _ h => resolveSchemaRefs_plain h,
   fun _ _ _ _ _ _ h1 h2 => resolveJ_collapse h1 h2⟩

/-- Witness for the amended C2 theorem at concrete inputs. -/
theorem schema_translation_amended_witness :
    (resolveSchemaRefs (.obj [("type", .str "object"),
        ("properties", .obj [("a", .obj [("type", .str "string")])])])
      = .ok (.obj [("type", .str "object"),
        ("properties", .obj [("a", .obj [("type", .str "string")])])]))
  ∧ (resolveJ [] (999 + 1)
        (.obj [("anyOf", .arr [.obj [("type", .str "integer")],
                               .obj [("type", .str "null")]]),
               ("description", .str "an optional count"),
               ("default", .num 0), ("title", .str "Count")])
      = .ok (.obj [("type", .str "integer"),
               ("description", .str "an optional count"),
               ("default", .num 0), ("title", .str "Count")])) :=
  ⟨schema_translation_amended.1 _ (by decide),
   schema_translation_amended.2 [] 999 [("type", .str "integer")]
     (.str "an optional count") (.num 0) (.str "Count") (by decide) (by decide)⟩

/-! ## Tool-call routing — `Orchestrator._execute_tool_call`
(src/orchestrator/orchestrator.py, lines 214-227) -/

/-- Python `json.dumps({"error": msg})` (none of the modelled messages
contains a character that `json.dumps` escapes). -/
def jsonError (msg : String) : String :=
  "\x7b\"error\": \"" ++ msg ++ "\"\x7d"

/-- Outcome of routing one model tool call: a structured error string
returned without dispatching, or a dispatch of the recovered
(agent_id, tool_name) pair to the pool. -/
inductive RouteResult where
  | errorReturn (msg : String)
  | dispatch (agentId toolName : String)
deriving DecidableEq

/-- The name handling of `Orchestrator._execute_tool_call`: Python
`parts = tool_name.split("__", 1)`; when `len(parts) != 2` a JSON error
object is returned and nothing is dispatched, otherwise the call is routed
to `pool.call_agent_tool(agent_id, mcp_tool_name, tool_input)`. -/
def executeToolCallRoute (toolName : String) : RouteResult :=
  let parts := strSplitOnce toolName "__"
  match parts with
  | [agentId, mcpToolName] => .dispatch agentId mcpToolName
  | _ => .errorReturn (jsonError ("Invalid tool name format: " ++ toolName))

theorem listContainsSub_tail {needle : List Char} {c : Char} {l : List Char}
    (h : listContainsSub needle (c :: l) = false) :
    listContainsSub needle l = false := by
  rw [listContainsSub, Bool.or_eq_false_iff] at h
  exact h.2

/-- A haystack with no occurrence of the (non-empty) separator splits into a
single part. -/
theorem splitOnce_no_occurrence (sub : List Char) (hsub : sub.isEmpty = false) :
    ∀ hay, countOccurAux sub hay 0 = 0 → splitOnceList sub hay = [hay] := by
  intro hay
  induction hay with
  | nil => intro _; rfl
  | cons c rest ih =>
    intro h
    rw [countOccurAux] at h
    cases hpre : List.isPrefixOf sub (c :: rest) with
    | true => rw [hpre, hsub] at h; simp at h
    | false =>
      rw [hpre, hsub] at h
      simp only [Bool.and_false, if_neg] at h
      rw [splitOnceList, if_neg (by rw [hpre]; simp), ih h]

/-- Splitting a name assembled around an explicitly marked first occurrence
of the separator: when `pre`, even extended by one extra underscore, contains
no `__`, the marked separator is the first occurrence in the whole name, and
the split yields exactly `pre` and `post`. -/
theorem splitOnce_at_first : ∀ (pre post : List Char),
    listContainsSub ['_', '_'] (pre ++ ['_']) = false →
    splitOnceList ['_', '_'] (pre ++ ['_', '_'] ++ post) = [pre, post] := by
  intro pre
  induction pre with
  | nil =>
    intro post _
    simp only [List.nil_append, List.cons_append]
    rw [splitOnceList]
    simp [List.isPrefixOf_cons₂]
  | cons c pre' ih =>
    intro post h
    simp only [List.cons_append] at h
    rw [listContainsSub, Bool.or_eq_false_iff] at h
    obtain ⟨h1, h2⟩ := h
    rw [List.isPrefixOf_cons₂] at h1
    have hcond : List.isPrefixOf ['_', '_']
        (c :: (pre' ++ ['_', '_'] ++ post)) = false := by
      rw [List.isPrefixOf_cons₂]
      cases pre' with
      | nil =>
        simp only [List.nil_append, List.cons_append,
          List.isPrefixOf_cons₂, List.isPrefixOf_nil_left] at h1 ⊢
        simpa using h1
      | cons c' rest' =>
        simp only [List.nil_append, List.cons_append,
          List.isPrefixOf_cons₂, List.isPrefixOf_nil_left] at h1 ⊢
        simpa using h1
    simp only [List.cons_append]
    rw [splitOnceList, if_neg (by rw [hcond]; simp), ih post h2]

theorem strSplitOnce_no_occurrence (name : String)
    (h : strCountOccur name "__" = 0) : strSplitOnce name "__" = [name] := by
  have h' : countOccurAux ['_', '_'] name.toList 0 = 0 := h
  show (splitOnceList ['_', '_'] name.toList).map String.mk = [name]
  rw [splitOnce_no_occurrence ['_', '_'] rfl name.toList h']
  rfl

theorem strSplitOnce_at_first (pre post : String)
    (h : strContainsSub (pre ++ "_") "__" = false) :
    strSplitOnce (pre ++ "__" ++ post) "__" = [pre, post] := by
  have h' : listContainsSub ['_', '_'] (pre.toList ++ ['_']) = false := h
  show (splitOnceList ['_', '_']
      (pre.toList ++ ['_', '_'] ++ post.toList)).map String.mk = [pre, post]
  rw [splitOnce_at_first pre.toList post.toList h']
  rfl

/-- C3: the claim fails on the code.  Python splits with `split("__", 1)`
(at most one split), so a name with TWO occurrences of `__` still yields
exactly two parts and is dispatched, while the claim requires a structured
error for every name without exactly one occurrence. -/
theorem execute_tool_call_counterexample :
    strCountOccur "a__b__c" "__" = 2
  ∧ executeToolCallRoute "a__b__c" = .dispatch "a" "b__c" :=
  ⟨by decide, by decide⟩

/-- C3 (amended): `_execute_tool_call` returns the structured JSON error
without dispatching iff the name contains NO occurrence of `__`; every name
containing at least one occurrence is split at the first occurrence into
(agent_id, remainder-of-name) and routed through the pool, even when the
remainder itself contains further `__` separators. -/
theorem execute_tool_call_amended :
    (∀ name : String, strCountOccur name "__" = 0 →
      executeToolCallRoute name
        = .errorReturn (jsonError ("Invalid tool name format: " ++ name)))
  ∧ (∀ pre post : String, strContainsSub (pre ++ "_") "__" = false →
      executeToolCallRoute (pre ++ "__" ++ post) = .dispatch pre post) := by
  constructor
  · intro name h
    show (match strSplitOnce name "__" with
      | [agentId, mcpToolName] => RouteResult.dispatch agentId mcpToolName
      | _ => RouteResult.errorReturn
          (jsonError ("Invalid tool name format: " ++ name)))
      = RouteResult.errorReturn (jsonError ("Invalid tool name format: " ++ name))
    rw [strSplitOnce_no_occurrence name h]
  · intro pre post h
    show (match strSplitOnce (pre ++ "__" ++ post) "__" with
      | [agentId, mcpToolName] => RouteResult.dispatch agentId mcpToolName
      | _ => RouteResult.errorReturn
          (jsonError ("Invalid tool name format: " ++ (pre ++ "__" ++ post))))
      = RouteResult.dispatch pre post
    rw [strSplitOnce_at_first pre post h]

/-- Witness for the amended C3 theorem at concrete tool names. -/
theorem execute_tool_call_amended_witness :
    (strCountOccur "plaintool" "__" = 0
      ∧ executeToolCallRoute "plaintool"
          = .errorReturn (jsonError ("Invalid tool name format: " ++ "plaintool")))
  ∧ (strContainsSub ("knowledge_base" ++ "_") "__" = false
      ∧ executeToolCallRoute ("knowledge_base" ++ "__" ++ "search_tech_stack")
          = .dispatch "knowledge_base" "search_tech_stack") :=
  ⟨⟨by decide, execute_tool_call_amended.1 "plaintool" (by decide)⟩,
   ⟨by decide, execute_tool_call_amended.2 "knowledge_base" "search_tech_stack"
      (by decide)⟩⟩

/-! ## Tool pools — `InProcessAgentPool` (inprocess_pool.py) and
`MCPAgentPool` / `MCPAgentConnection` (mcp_client.py) -/

/-- The keys of the static `_TOOL_REGISTRY` of inprocess_pool.py
(lines 71-242): every (agent_id, tool_name) pair the in-process pool knows. -/
def toolRegistryKeys : List (String × String) := [
  ("client_research", "search_company_info"),
  ("client_research", "analyze_rfp_document"),
  ("client_research", "search_linkedin_company"),
  ("knowledge_base", "search_past_projects"),
  ("knowledge_base", "get_project_details"),
  ("knowledge_base", "search_tech_stack"),
  ("knowledge_base", "get_case_studies"),
  ("proposal_writer", "generate_proposal"),
  ("proposal_writer", "generate_timeline"),
  ("proposal_writer", "generate_executive_summary"),
  ("proposal_writer", "export_proposal_docx"),
  ("pricing", "estimate_project"),
  ("pricing", "estimate_from_roles"),
  ("pricing", "get_rate_card")]

/-- The body of the `try` block of `InProcessAgentPool.call_agent_tool`
(inprocess_pool.py lines 303-312): `params = model_class(**args)` runs first
(`validate`), and only if it does not raise does `await fn(params)` run
(`body`).  The second component records whether the tool function body (the
stage that performs network calls) was ever entered.  Any raise from either
stage is wrapped by the `except` clause as a Tool-call-failed JSON error. -/
def toolRunResult (validate : Except String Unit)
    (body : Except String String) : String × Bool :=
  match validate with
  | .error e => (jsonError ("Tool call failed: " ++ e), false)
  | .ok _ =>
      match body with
      | .ok result => (result, true)
      | .error e => (jsonError ("Tool call failed: " ++ e), true)

/-- `InProcessAgentPool.call_agent_tool` (inprocess_pool.py lines 294-312):
an unknown (agent_id, tool_name) pair is answered with a not-found JSON
error before anything runs; otherwise the tool executes under the
try/except.  The function is total: no branch raises to the caller. -/
def inprocessCallAgentTool (agentId toolName : String)
    (validate : Except String Unit) (body : Except String String) :
    String × Bool :=
  if (agentId, toolName) ∈ toolRegistryKeys then
    toolRunResult validate body
  else
    (jsonError ("Tool '" ++ toolName ++ "' not found on agent '" ++ agentId ++ "'"),
     false)

/-- The same call made through the pool object: the method ignores the
`_connected` list entirely (it is read only by `get_all_tools`). -/
def inprocessPoolCallAgentTool (connected : List String)
    (agentId toolName : String) (validate : Except String Unit)
    (body : Except String String) : String × Bool :=
  inprocessCallAgentTool agentId toolName validate body

/-- `MCPAgentConnection.call_tool` (mcp_client.py lines 84-101): a missing
session is a not-connected JSON error; otherwise the MCP session call either
raises (wrapped as a Tool-call-failed JSON error) or yields the text blocks
of the response, joined by newlines, with a fixed JSON object when no text
block is present. -/
def mcpConnectionCallTool (hasSession : Bool) (agentId : String)
    (sessionResult : Except String (List String)) : String :=
  if !hasSession then
    jsonError ("Agent '" ++ agentId ++ "' is not connected")
  else
    match sessionResult with
    | .error e => jsonError ("Tool call failed: " ++ e)
    | .ok texts =>
        if texts.isEmpty then "\x7b\"result\": \"empty response\"\x7d"
        else String.intercalate "\n" texts

/-- `MCPAgentPool.call_agent_tool` (mcp_client.py lines 138-145): an agent
id absent from `_connections` is answered with a not-found-or-not-connected
JSON error; the pool only ever stores connected sessions. -/
def mcpPoolCallAgentTool (connections : List String)
    (agentId toolName : String)
    (sessionResult : Except String (List String)) : String :=
  if agentId ∈ connections then
    mcpConnectionCallTool true agentId sessionResult
  else
    jsonError ("Agent '" ++ agentId ++ "' not found or not connected")

/-! ## The agentic loop and auto-export — `Orchestrator.chat`
(src/orchestrator/orchestrator.py, lines 231-328) -/

/-- One content block of a model response. -/
inductive Block where
  | text (s : String)
  | toolUse (id name : String) (input : Json)

/-- A model response: stop reason plus content blocks. -/
structure ModelResp where
  stopReason : String
  blocks : List Block

/-- One turn of the conversation history, as far as the loop reads it. -/
inductive Turn where
  | user (msg : String)
  | assistant (blocks : List Block)
  | toolResults (results : List (String × String))

/-- The fixed document-request keyword set of the auto-export heuristic
(orchestrator.py line 277). -/
def docKeywords : List String := ["docx", "word", "exporta", "documento"]

/-- `wants_docx = any(kw in user_message.lower() for kw in [...])`. -/
def wantsDocx (userMessage : String) : Bool :=
  docKeywords.any (fun kw => strContainsSub (pyLower userMessage) kw)

/-- Python truthiness of the `Optional[str]` pending fields: `None` and the
empty string are falsy. -/
def truthy : Option String → Bool
  | none => false
  | some s => !(s == "")

/-- `final_text = ""` then `+=` over the text blocks, in order. -/
def extractText (blocks : List Block) : String :=
  blocks.foldl (fun acc b => match b with | .text s => acc ++ s | _ => acc) ""

/-- Outcome of the final-answer branch of `Orchestrator.chat`
(lines 270-298): the returned text, the pending pair afterwards, and whether
the export tool was invoked. -/
structure FinalOutcome where
  text : String
  pendingMd : Option String
  pendingClient : Option String
  exportCalled : Bool

/-- The final-answer branch of `Orchestrator.chat`: after extracting the
final text, auto-export fires when both pending fields are truthy and the
original user message matches the keyword heuristic.  `exportCall` is what
`self._execute_tool_call("proposal_writer__export_proposal_docx", ...)`
does with the pending pair; `Except.error` is a raised Python exception
(the `except` clause), `Except.ok` a returned string of any content.  The
pending pair is cleared inside the `try`, after a return without raise. -/
def finalAnswerStep (userMessage finalText : String)
    (pendingMd pendingClient : Option String)
    (exportCall : String → String → Except String String) : FinalOutcome :=
  if truthy pendingMd && truthy pendingClient && wantsDocx userMessage then
    let md := pendingMd.getD ""
    let client := pendingClient.getD ""
    match exportCall md client with
    | .ok exportResult =>
        { text := finalText ++
            "\n\n---\n📄 **Documento DOCX generado automáticamente.**\n" ++ exportResult,
          pendingMd := none, pendingClient := none, exportCalled := true }
    | .error e =>
        { text := finalText ++ "\n\n⚠️ No se pudo exportar a DOCX automáticamente: " ++ e,
          pendingMd := pendingMd, pendingClient := pendingClient,
          exportCalled := true }
  else
    { text := finalText, pendingMd := pendingMd, pendingClient := pendingClient,
      exportCalled := false }

/-- `tool_input.get("params", tool_input)` (also the unwrap step of
`InProcessAgentPool.call_agent_tool`); the loop only ever applies it to the
object inputs the model API delivers. -/
def getParams : Json → Json
  | .obj fields => (Json.lookupKey "params" fields).getD (.obj fields)
  | j => j

/-- `params.get("client_name", "Client")`; the registered proposal tools
take string client names, so a non-string value is not modelled. -/
def getClientName : Json → String
  | .obj fields =>
      match Json.lookupKey "client_name" fields with
      | some (.str s) => s
      | _ => "Client"
  | _ => "Client"

/-- The pending-proposal tracking of the tool-execution loop
(orchestrator.py lines 319-323): a result of the composite tool
`proposal_writer__generate_proposal` carrying the literal marker
`📄 Technical Proposal` replaces the pending pair. -/
def trackPending (pendingMd pendingClient : Option String)
    (toolName : String) (toolInput : Json) (result : String) :
    Option String × Option String :=
  if toolName == "proposal_writer__generate_proposal" &&
      strContainsSub result "📄 Technical Proposal" then
    (some result, some (getClientName (getParams toolInput)))
  else
    (pendingMd, pendingClient)

/-- `Orchestrator._execute_tool_call` in full: split the composite name and
either return the error JSON or call the pool (`exec` is
`pool.call_agent_tool`, which is total for both pool variants). -/
def executeToolCall (exec : String → String → Json → String)
    (toolName : String) (input : Json) : String :=
  match executeToolCallRoute toolName with
  | .errorReturn msg => msg
  | .dispatch agentId mcpToolName => exec agentId mcpToolName input

/-- Step 4 of the loop: execute every tool_use block in order, collecting
(tool_use_id, result) pairs and threading the pending-proposal pair. -/
def processToolBlocks (exec : String → String → Json → String) :
    List Block → Option String → Option String →
    List (String × String) × Option String × Option String
  | [], md, cl => ([], md, cl)
  | .text _ :: rest, md, cl => processToolBlocks exec rest md cl
  | .toolUse id name input :: rest, md, cl =>
      let result := executeToolCall exec name input
      let (md1, cl1) := trackPending md cl name input result
      let (results, md2, cl2) := processToolBlocks exec rest md1 cl1
      ((id, result) :: results, md2, cl2)

/-- Orchestrator conversation state threaded by the loop. -/
structure ChatState where
  history : List Turn
  pendingMd : Option String
  pendingClient : Option String

/-- Observable outcome of one `chat` call: the returned text, the state
afterwards, the number of model calls made, and whether the export tool was
invoked by the auto-export heuristic. -/
structure ChatOutcome where
  text : String
  state : ChatState
  modelCalls : Nat
  exportCalled : Bool

/-- `max_iterations = 10` (orchestrator.py line 249). -/
def maxIterations : Nat := 10

/-- The agentic loop of `Orchestrator.chat` (lines 254-328), with the
model, the pool and the export call abstracted as oracles.  `remaining`
counts the iterations left in `range(max_iterations)`; exhausting it
returns the fixed warning string.  The source condition
`stop_reason == "end_turn" or stop_reason != "tool_use"` is equivalent to
`stop_reason != "tool_use"`. -/
def chatGo (claude : List Turn → ModelResp)
    (exec : String → String → Json → String)
    (exportCall : String → String → Except String String)
    (userMessage : String) : Nat → ChatState → ChatOutcome
  | 0, st =>
      { text := "⚠️ Maximum orchestration iterations reached. Partial results may be available.",
        state := st, modelCalls := 0, exportCalled := false }
  | remaining + 1, st =>
      let resp := claude st.history
      let hist1 := st.history ++ [Turn.assistant resp.blocks]
      if resp.stopReason ≠ "tool_use" then
        let fo := finalAnswerStep userMessage (extractText resp.blocks)
          st.pendingMd st.pendingClient exportCall
        { text := fo.text,
          state := { history := hist1, pendingMd := fo.pendingMd,
                     pendingClient := fo.pendingClient },
          modelCalls := 1, exportCalled := fo.exportCalled }
      else
        let (results, md1, cl1) :=
          processToolBlocks exec resp.blocks st.pendingMd st.pendingClient
        let st2 : ChatState :=
          { history := hist1 ++ [Turn.toolResults results],
            pendingMd := md1, pendingClient := cl1 }
        let out := chatGo claude exec exportCall userMessage remaining st2
        { out with modelCalls := out.modelCalls + 1 }

/-- `Orchestrator.chat`: append the user message and run the loop. -/
def chat (claude : List Turn → ModelResp)
    (exec : String → String → Json → String)
    (exportCall : String → String → Except String String)
    (userMessage : String) (st : ChatState) : ChatOutcome :=
  chatGo claude exec exportCall userMessage maxIterations
    { st with history := st.history ++ [Turn.user userMessage] }

/-! ### C4 — iteration bound of the agentic loop -/

theorem chatGo_modelCalls_le (claude : List Turn → ModelResp)
    (exec : String → String → Json → String)
    (exportCall : String → String → Except String String) (msg : String) :
    ∀ (n : Nat) (st : ChatState),
      (chatGo claude exec exportCall msg n st).modelCalls ≤ n := by
  intro n
  induction n with
  | zero => intro st; exact Nat.le_refl 0
  | succ n ih =>
    intro st
    rw [chatGo]
    split
    · exact Nat.one_le_iff_ne_zero.mpr (Nat.succ_ne_zero n)
    · exact Nat.succ_le_succ (ih _)

theorem chatGo_all_tools (claude : List Turn → ModelResp)
    (exec : String → String → Json → String)
    (exportCall : String → String → Except String String) (msg : String)
    (h : ∀ hist, (claude hist).stopReason = "tool_use") :
    ∀ (n : Nat) (st : ChatState),
      (chatGo claude exec exportCall msg n st).text =
        "⚠️ Maximum orchestration iterations reached. Partial results may be available."
      ∧ (chatGo claude exec exportCall msg n st).modelCalls = n := by
  intro n
  induction n with
  | zero => intro st; exact ⟨rfl, rfl⟩
  | succ n ih =>
    intro st
    rw [chatGo]
    split
    · next hstop => exact absurd (h st.history) hstop
    · exact ⟨(ih _).1, congrArg (fun x => x + 1) (ih _).2⟩

/-- C4: for every model oracle (hence every sequence of model responses)
the agentic loop makes at most `max_iterations = 10` model calls — it is a
total function, so it terminates — and with a model that requests tool use
on every iteration it performs exactly 10 iterations and returns the fixed
warning string instead of raising. -/
theorem chat_iteration_bound :
    (∀ (claude : List Turn → ModelResp) (exec : String → String → Json → String)
       (exportCall : String → String → Except String String)
       (msg : String) (st : ChatState),
      (chat claude exec exportCall msg st).modelCalls ≤ maxIterations)
  ∧ (∀ (claude : List Turn → ModelResp) (exec : String → String → Json → String)
       (exportCall : String → String → Except String String)
       (msg : String) (st : ChatState),
      (∀ hist, (claude hist).stopReason = "tool_use") →
      (chat claude exec exportCall msg st).text =
        "⚠️ Maximum orchestration iterations reached. Partial results may be available."
      ∧ (chat claude exec exportCall msg st).modelCalls = maxIterations) :=
  ⟨fun claude exec exportCall msg st =>
      chatGo_modelCalls_le claude exec exportCall msg maxIterations _,
   fun claude exec exportCall msg st h =>
      chatGo_all_tools claude exec exportCall msg h maxIterations _⟩

/-- Witness for C4 with a stub reasoning backend that always answers
"wants to use tools". -/
theorem chat_iteration_bound_witness :
    (chat (fun _ => ⟨"tool_use", []⟩) (fun _ _ _ => "") (fun _ _ => .ok "")
        "hello" ⟨[], none, none⟩).text =
      "⚠️ Maximum orchestration iterations reached. Partial results may be available."
    ∧ (chat (fun _ => ⟨"tool_use", []⟩) (fun _ _ _ => "") (fun _ _ => .ok "")
        "hello" ⟨[], none, none⟩).modelCalls = maxIterations :=
  chat_iteration_bound.2 (fun _ => ⟨"tool_use", []⟩) (fun _ _ _ => "")
    (fun _ _ => .ok "") "hello" ⟨[], none, none⟩ (fun _ => rfl)

/-! ### C1 and C5 — the auto-export heuristic -/

/-- The export call as `Orchestrator.chat` actually reaches it: through the
in-process pool, whose `call_agent_tool` returns on every input (failures
come back as returned JSON error strings, never as raised exceptions), so
the orchestrator-side `except` branch can never fire. -/
def exportViaInprocessPool (validate : String → String → Except String Unit)
    (body : String → String → Except String String) :
    String → String → Except String String :=
  fun md client =>
    .ok (inprocessCallAgentTool "proposal_writer" "export_proposal_docx"
      (validate md client) (body md client)).1

/-- C1: the claim fails on the code.  When the underlying export tool fails
(here: raising "disk full", which the pool wraps as the returned JSON error
`Tool call failed: disk full`), the final-answer branch still clears the
pending pair and appends the success note around the error text, so an
identical follow-up message cannot re-trigger the export. -/
theorem auto_export_clear_counterexample :
    (inprocessCallAgentTool "proposal_writer" "export_proposal_docx"
        (.ok ()) (.error "disk full")).1
      = jsonError ("Tool call failed: disk full")
  ∧ (finalAnswerStep "export docx please" "Done." (some "proposal md")
        (some "ACME")
        (exportViaInprocessPool (fun _ _ => .ok ())
          (fun _ _ => .error "disk full"))).pendingMd = none
  ∧ (finalAnswerStep "export docx please" "Done." (some "proposal md")
        (some "ACME")
        (exportViaInprocessPool (fun _ _ => .ok ())
          (fun _ _ => .error "disk full"))).pendingClient = none
  ∧ strContainsSub
      (finalAnswerStep "export docx please" "Done." (some "proposal md")
        (some "ACME")
        (exportViaInprocessPool (fun _ _ => .ok ())
          (fun _ _ => .error "disk full"))).text
      "Tool call failed: disk full" = true :=
  ⟨by decide, by decide, by decide, by decide⟩

/-- C1 (amended): the pending pair is cleared iff the export call returns
rather than raises.  Through the pool every call returns — tool failures
come back as JSON error strings — so whenever auto-export fires through the
in-process pool the pending pair is cleared, regardless of export success;
the pending pair is preserved only when the export call raises, which the
pool never does. -/
theorem auto_export_clear_amended :
    (∀ (userMessage finalText md client : String)
       (validate : String → String → Except String Unit)
       (body : String → String → Except String String),
      truthy (some md) = true → truthy (some client) = true →
      wantsDocx userMessage = true →
      (finalAnswerStep userMessage finalText (some md) (some client)
          (exportViaInprocessPool validate body)).pendingMd = none
      ∧ (finalAnswerStep userMessage finalText (some md) (some client)
          (exportViaInprocessPool validate body)).pendingClient = none)
  ∧ (∀ (userMessage finalText : String) (pendingMd pendingClient : Option String)
       (exportCall : String → String → Except String String) (e : String),
      exportCall (pendingMd.getD "") (pendingClient.getD "") = .error e →
      (finalAnswerStep userMessage finalText pendingMd pendingClient
          exportCall).pendingMd = pendingMd
      ∧ (finalAnswerStep userMessage finalText pendingMd pendingClient
          exportCall).pendingClient = pendingClient) := by
  constructor
  · intro userMessage finalText md client validate body hmd hcl hdocx
    rw [finalAnswerStep, if_pos (by rw [hmd, hcl, hdocx]; rfl)]
    exact ⟨rfl, rfl⟩
  · intro userMessage finalText pendingMd pendingClient exportCall e herr
    by_cases hc : (truthy pendingMd && truthy pendingClient &&
        wantsDocx userMessage) = true
    · rw [finalAnswerStep, if_pos hc]
      simp [herr]
    · rw [finalAnswerStep, if_neg hc]
      exact ⟨rfl, rfl⟩

/-- Witness for the amended C1 theorem at concrete inputs. -/
theorem auto_export_clear_amended_witness :
    ((finalAnswerStep "Exporta el documento" "Listo." (some "# Proposal")
        (some "ACME")
        (exportViaInprocessPool (fun _ _ => .ok ())
          (fun _ _ => .ok "Saved to exports"))).pendingMd = none
      ∧ (finalAnswerStep "Exporta el documento" "Listo." (some "# Proposal")
        (some "ACME")
        (exportViaInprocessPool (fun _ _ => .ok ())
          (fun _ _ => .ok "Saved to exports"))).pendingClient = none)
  ∧ ((finalAnswerStep "export to docx" "Done." (some "# Proposal")
        (some "ACME") (fun _ _ => .error "boom")).pendingMd = some "# Proposal"
      ∧ (finalAnswerStep "export to docx" "Done." (some "# Proposal")
        (some "ACME") (fun _ _ => .error "boom")).pendingClient = some "ACME") :=
  ⟨auto_export_clear_amended.1 "Exporta el documento" "Listo." "# Proposal"
      "ACME" (fun _ _ => .ok ()) (fun _ _ => .ok "Saved to exports")
      (by decide) (by decide) (by decide),
   auto_export_clear_amended.2 "export to docx" "Done." (some "# Proposal")
      (some "ACME") (fun _ _ => .error "boom") "boom" rfl⟩

/-- C5: the claim fails on the code at one corner: a pending markdown that
is set (not None) but equal to the empty string is falsy in Python, so no
export call is made even though a pending pair exists and the message asks
for a document. -/
theorem auto_export_fires_counterexample :
    (some "" : Option String) ≠ none
  ∧ wantsDocx "Por favor exporta el documento" = true
  ∧ (finalAnswerStep "Por favor exporta el documento" "ok" (some "")
      (some "ACME") (fun _ _ => .ok "ignored")).exportCalled = false :=
  ⟨by simp, by decide, by decide⟩

/-- C5 (amended): auto-export fires iff both pending fields are set to
non-empty strings (Python truthiness; in reachable states they are never
empty when set) and the lowercased user message contains one of the four
keywords docx / word / exporta / documento as a substring; in every other
final-answer state no export call is made. -/
theorem auto_export_fires_amended :
    (∀ (userMessage finalText : String) (pendingMd pendingClient : Option String)
       (exportCall : String → String → Except String String),
      (finalAnswerStep userMessage finalText pendingMd pendingClient
          exportCall).exportCalled
        = (truthy pendingMd && truthy pendingClient && wantsDocx userMessage))
  ∧ (∀ msg : String, wantsDocx msg =
      (strContainsSub (pyLower msg) "docx" || strContainsSub (pyLower msg) "word" ||
       strContainsSub (pyLower msg) "exporta" ||
       strContainsSub (pyLower msg) "documento")) := by
  constructor
  · intro userMessage finalText pendingMd pendingClient exportCall
    by_cases hc : (truthy pendingMd && truthy pendingClient &&
        wantsDocx userMessage) = true
    · rw [finalAnswerStep, if_pos hc, hc]
      cases hec : exportCall (pendingMd.getD "") (pendingClient.getD "") with
      | ok r => simp only [hec]
      | error e => simp only [hec]
    · rw [finalAnswerStep, if_neg hc]
      simp only [Bool.not_eq_true] at hc
      exact hc.symm
  · intro msg
    simp [wantsDocx, docKeywords, Bool.or_assoc]

/-! ## Rate-limit retry — `Orchestrator._call_claude`
(orchestrator.py, lines 173-212) and `analyze_with_claude`
(src/agents/client_research/tools.py, lines 52-79) -/

/-- Outcome of one generative-text call. -/
inductive CallOutcome where
  | ok (attempt : Nat)
  | httpError (status : Nat)
  | rateLimited
deriving DecidableEq

/-- The retry loop shared by `Orchestrator._call_claude` and
`analyze_with_claude`: `status` is the HTTP status of each 0-based attempt,
the last argument the attempts remaining of `for attempt in
range(max_retries)`.  On 429 the code sleeps `(attempt + 1) * 15` seconds
(waits are collected in the returned list) and retries; any other status of
at least 400 raises immediately via `raise_for_status` and is never
retried; otherwise the parsed response is returned.  Falling off the loop
raises the distinct rate-limit `RuntimeError`. -/
def callClaudeGo (status : Nat → Nat) : Nat → Nat → CallOutcome × List Nat
  | _, 0 => (.rateLimited, [])
  | attempt, remaining + 1 =>
      let s := status attempt
      if s = 429 then
        let wait := (attempt + 1) * 15
        let next := callClaudeGo status (attempt + 1) remaining
        (next.1, wait :: next.2)
      else if s ≥ 400 then (.httpError s, [])
      else (.ok attempt, [])

/-- `max_retries = 5` at both call sites. -/
def maxRetries : Nat := 5

/-- One generative-text call with its retry loop, returning the outcome and
the sequence of back-off waits actually slept. -/
def callClaude (status : Nat → Nat) : CallOutcome × List Nat :=
  callClaudeGo status 0 maxRetries

/-- The message of the distinct rate-limit error of `_call_claude`. -/
def orchestratorRateLimitMsg : String :=
  "Claude API rate limit exceeded after all retries. Wait a minute and try again."

/-- The message of the distinct rate-limit error of `analyze_with_claude`. -/
def clientResearchRateLimitMsg : String :=
  "Claude API rate limit exceeded in client research after all retries."

/-- C6: with a 429 on every attempt the loop performs exactly 5 attempts,
sleeping the strictly increasing backoffs 15, 30, 45, 60, 75 seconds
(attempt index times the fixed 15-second unit), then fails with the
distinct rate-limit error, whose message at both call sites names the rate
limit; any other HTTP failure status propagates from the first attempt with
no retry and no sleep. -/
theorem rate_limit_retry :
    (∀ status : Nat → Nat, (∀ a, a < maxRetries → status a = 429) →
      callClaude status = (.rateLimited, [15, 30, 45, 60, 75]))
  ∧ [15, 30, 45, 60, 75].length = maxRetries
  ∧ List.Chain' (· < ·) [15, 30, 45, 60, 75]
  ∧ strContainsSub orchestratorRateLimitMsg "rate limit exceeded" = true
  ∧ strContainsSub clientResearchRateLimitMsg "rate limit exceeded" = true
  ∧ (∀ (status : Nat → Nat) (c : Nat), status 0 = c → c ≠ 429 → 400 ≤ c →
      callClaude status = (.httpError c, [])) := by
  refine ⟨?_, by decide, by simp, by decide, by decide, ?_⟩
  · intro status h
    have h0 := h 0 (by decide)
    have h1 := h 1 (by decide)
    have h2 := h 2 (by decide)
    have h3 := h 3 (by decide)
    have h4 := h 4 (by decide)
    simp [callClaude, maxRetries, callClaudeGo, h0, h1, h2, h3, h4]
  · intro status c h0 hne hge
    simp [callClaude, maxRetries, callClaudeGo, h0, hne, hge]

/-- Witness for C6: a backend answering 429 on every attempt, and one
answering 500 on the first attempt. -/
theorem rate_limit_retry_witness :
    callClaude (fun _ => 429) = (.rateLimited, [15, 30, 45, 60, 75])
  ∧ callClaude (fun _ => 500) = (.httpError 500, []) :=
  ⟨rate_limit_retry.1 (fun _ => 429) (fun _ _ => rfl),
   rate_limit_retry.2.2.2.2.2 (fun _ => 500) 500 rfl (by decide) (by decide)⟩

/-! ### C7 — substitutability of the two pools -/

/-- C7: both pool variants are total Lean functions (modelling that every
failure path in the Python returns instead of raising); each rejects an
unknown (agent_id, tool_name) pair with a single-key `{"error": ...}`
object; and for a known, connected pair whose execution raises `e`, both
return the identical string `{"error": "Tool call failed: e"}`. -/
theorem pool_substitutability :
    (∀ (agentId toolName : String) (validate : Except String Unit)
       (body : Except String String),
      (agentId, toolName) ∉ toolRegistryKeys →
      (inprocessCallAgentTool agentId toolName validate body).1
        = jsonError ("Tool '" ++ toolName ++ "' not found on agent '" ++
            agentId ++ "'"))
  ∧ (∀ (connections : List String) (agentId toolName : String)
       (sessionResult : Except String (List String)),
      agentId ∉ connections →
      mcpPoolCallAgentTool connections agentId toolName sessionResult
        = jsonError ("Agent '" ++ agentId ++ "' not found or not connected"))
  ∧ (∀ (agentId toolName e : String) (connections : List String),
      (agentId, toolName) ∈ toolRegistryKeys → agentId ∈ connections →
      (inprocessCallAgentTool agentId toolName (.ok ()) (.error e)).1
        = mcpPoolCallAgentTool connections agentId toolName (.error e)
      ∧ (inprocessCallAgentTool agentId toolName (.ok ()) (.error e)).1
        = jsonError ("Tool call failed: " ++ e)) := by
  refine ⟨?_, ?_, ?_⟩
  · intro agentId toolName validate body hk
    rw [inprocessCallAgentTool, if_neg hk]
  · intro connections agentId toolName sessionResult hk
    rw [mcpPoolCallAgentTool, if_neg hk]
  · intro agentId toolName e connections hk hc
    rw [inprocessCallAgentTool, if_pos hk, mcpPoolCallAgentTool, if_pos hc]
    exact ⟨rfl, rfl⟩

/-- Witness for C7: a tool name unknown to both pools, and the registered
export tool raising an internal exception on both pools. -/
theorem pool_substitutability_witness :
    ((("pricing", "no_such_tool") ∉ toolRegistryKeys)
      ∧ (inprocessCallAgentTool "pricing" "no_such_tool" (.ok ()) (.ok "x")).1
          = jsonError "Tool 'no_such_tool' not found on agent 'pricing'")
  ∧ (("pricing" ∉ (["client_research"] : List String))
      ∧ mcpPoolCallAgentTool ["client_research"] "pricing" "no_such_tool" (.ok ["y"])
          = jsonError "Agent 'pricing' not found or not connected")
  ∧ (inprocessCallAgentTool "proposal_writer" "export_proposal_docx"
        (.ok ()) (.error "boom")).1
      = mcpPoolCallAgentTool ["proposal_writer"] "proposal_writer"
          "export_proposal_docx" (.error "boom") :=
  ⟨⟨by decide, pool_substitutability.1 "pricing" "no_such_tool" (.ok ()) (.ok "x")
      (by decide)⟩,
   ⟨by decide, pool_substitutability.2.1 ["client_research"] "pricing"
      "no_such_tool" (.ok ["y"]) (by decide)⟩,
   (pool_substitutability.2.2 "proposal_writer" "export_proposal_docx" "boom"
      ["proposal_writer"] (by decide) (by decide)).1⟩

/-! ### C10 — connection state and the two pools -/

/-- C10: whether the in-process pool rejects a call depends only on the
static registry — the `_connected` list never influences
`call_agent_tool`, so a registered tool executes with any connection state,
including the empty one left by `disconnect_all`; the subprocess pool
instead answers for any agent id missing from its connection dict (as after
`disconnect_all`) with the not-connected error. -/
theorem pool_connection_state :
    (∀ (connected connected' : List String) (agentId toolName : String)
       (validate : Except String Unit) (body : Except String String),
      inprocessPoolCallAgentTool connected agentId toolName validate body
        = inprocessPoolCallAgentTool connected' agentId toolName validate body)
  ∧ (∀ (agentId toolName : String) (validate : Except String Unit)
       (body : Except String String),
      (agentId, toolName) ∈ toolRegistryKeys →
      ∀ connected : List String,
        inprocessPoolCallAgentTool connected agentId toolName validate body
          = toolRunResult validate body)
  ∧ (∀ (agentId toolName : String)
       (sessionResult : Except String (List String)),
      mcpPoolCallAgentTool [] agentId toolName sessionResult
        = jsonError ("Agent '" ++ agentId ++ "' not found or not connected")) := by
  refine ⟨fun _ _ _ _ _ _ => rfl, ?_, ?_⟩
  · intro agentId toolName validate body hk connected
    rw [inprocessPoolCallAgentTool, inprocessCallAgentTool, if_pos hk]
  · intro agentId toolName sessionResult
    rw [mcpPoolCallAgentTool, if_neg (by simp)]

/-- Witness for C10: the rate-card tool runs with an empty connection list
on the in-process pool, while the subprocess pool rejects it. -/
theorem pool_connection_state_witness :
    (("pricing", "get_rate_card") ∈ toolRegistryKeys
      ∧ inprocessPoolCallAgentTool [] "pricing" "get_rate_card" (.ok ())
          (.ok "rate card") = ("rate card", true))
  ∧ mcpPoolCallAgentTool [] "pricing" "get_rate_card" (.ok ["rate card"])
      = jsonError "Agent 'pricing' not found or not connected" :=
  ⟨⟨by decide,
    pool_connection_state.2.1 "pricing" "get_rate_card" (.ok ())
      (.ok "rate card") (by decide) []⟩,
   pool_connection_state.2.2 "pricing" "get_rate_card" (.ok ["rate card"])⟩

/-! ### C8 — input validation before any network call
(src/agents/client_research/models.py, lines 16-49) -/

/-- The whitespace stripped by Python `str.strip()` (ASCII subset, which is
all the modelled inputs use). -/
def isPySpace (c : Char) : Bool :=
  c = ' ' || c = '\t' || c = '\n' || c = '\r' || c = '\x0b' || c = '\x0c'

/-- Python `s.strip()`. -/
def pyStrip (s : String) : String :=
  String.mk (((s.toList.dropWhile isPySpace).reverse.dropWhile isPySpace).reverse)

/-- Pydantic validation of `SearchCompanyInput`
(`str_strip_whitespace=True`, `company_name` length in [1, 200],
`additional_context` length at most 500).  Error messages abbreviate the
Pydantic ones; only their existence matters to the claims. -/
def validateSearchCompanyInput (companyName : String)
    (additionalContext : Option String) : Except String Unit :=
  let name := pyStrip companyName
  if name.length < 1 then
    .error "company_name: String should have at least 1 character"
  else if name.length > 200 then
    .error "company_name: String should have at most 200 characters"
  else
    match additionalContext with
    | none => .ok ()
    | some ctx =>
        if (pyStrip ctx).length > 500 then
          .error "additional_context: String should have at most 500 characters"
        else .ok ()

/-- Pydantic validation of `AnalyzeRFPInput` (`str_strip_whitespace=True`,
`rfp_text` at least 10 characters). -/
def validateAnalyzeRFPInput (rfpText : String) : Except String Unit :=
  if (pyStrip rfpText).length < 10 then
    .error "rfp_text: String should have at least 10 characters"
  else .ok ()

/-- C8: a constraint-violating input makes `model_class(**args)` raise, so
`call_agent_tool` returns the wrapped structured error with the tool body —
the only stage that performs network calls — never entered (second
component `false`); in particular an empty (or all-whitespace) company name
and an RFP text shorter than 10 characters after stripping are rejected. -/
theorem input_validation_before_network :
    (∀ (name : String) (ctx : Option String) (body : Except String String)
       (e : String),
      validateSearchCompanyInput name ctx = .error e →
      inprocessCallAgentTool "client_research" "search_company_info"
          (validateSearchCompanyInput name ctx) body
        = (jsonError ("Tool call failed: " ++ e), false))
  ∧ (∀ (t : String) (body : Except String String) (e : String),
      validateAnalyzeRFPInput t = .error e →
      inprocessCallAgentTool "client_research" "analyze_rfp_document"
          (validateAnalyzeRFPInput t) body
        = (jsonError ("Tool call failed: " ++ e), false))
  ∧ (∀ s : String, pyStrip s = "" →
      validateSearchCompanyInput s none
        = .error "company_name: String should have at least 1 character")
  ∧ (∀ s : String, (pyStrip s).length < 10 →
      validateAnalyzeRFPInput s
        = .error "rfp_text: String should have at least 10 characters") := by
  refine ⟨?_, ?_, ?_, ?_⟩
  · intro name ctx body e he
    rw [inprocessCallAgentTool, if_pos (by decide), he]
    rfl
  · intro t body e he
    rw [inprocessCallAgentTool, if_pos (by decide), he]
    rfl
  · intro s hs
    rw [validateSearchCompanyInput]
    simp [hs]
  · intro s hs
    rw [validateAnalyzeRFPInput, if_pos hs]

/-- Witness for C8: the whitespace-only company name and a 5-character RFP
text are both rejected before the (stub) tool body could run. -/
theorem input_validation_before_network_witness :
    (inprocessCallAgentTool "client_research" "search_company_info"
        (validateSearchCompanyInput "   " none) (.ok "network result")
      = (jsonError
          "Tool call failed: company_name: String should have at least 1 character",
         false))
  ∧ (inprocessCallAgentTool "client_research" "analyze_rfp_document"
        (validateAnalyzeRFPInput "short") (.ok "network result")
      = (jsonError
          "Tool call failed: rfp_text: String should have at least 10 characters",
         false))
  ∧ pyStrip "   " = ""
  ∧ (pyStrip "short").length < 10 :=
  ⟨input_validation_before_network.1 "   " none (.ok "network result") _ rfl,
   input_validation_before_network.2.1 "short" (.ok "network result") _ rfl,
   by decide, by decide⟩

/-! ### C9 — `search_tech_stack`
(src/agents/knowledge_base/tools.py, lines 263-314) -/

/-- A knowledge-base project record, reduced to the fields
`search_tech_stack` reads. -/
structure Project where
  projectId : String
  name : String
  techStack : List String
deriving DecidableEq

/-- `search_tech_stack` up to rendering: lowercase both the searched
technologies and each project's tech stack into sets, intersect, include a
project when the intersection equals the search set (`match_all`) or is
non-empty (otherwise), pair it with `len(matched_techs)`, and stable-sort
by that count, descending.  Both the JSON and the Markdown rendering map
one-to-one over this list (`matched_count` is the second component). -/
def searchTechStack (technologies : List String) (matchAll : Bool)
    (projects : List Project) : List (Project × Nat) :=
  let searchTechs : Finset String := (technologies.map pyLower).toFinset
  let unsorted := projects.filterMap (fun p =>
    let projectTechs : Finset String := (p.techStack.map pyLower).toFinset
    let matched := searchTechs ∩ projectTechs
    if matchAll then
      if matched = searchTechs then some (p, matched.card) else none
    else
      if matched = ∅ then none else some (p, matched.card))
  unsorted.mergeSort (fun a b => decide (b.2 ≤ a.2))

theorem filterMap_nil_of_filter_nil {α β : Type} (f : α → Option β)
    (pred : α → Bool) (hnone : ∀ a, pred a = false → f a = none) :
    ∀ l : List α, l.filter pred = [] → l.filterMap f = [] := by
  intro l
  induction l with
  | nil => intro _; rfl
  | cons a t ih =>
    intro h
    rw [List.filter_cons] at h
    cases hpa : pred a with
    | true => rw [hpa] at h; simp at h
    | false =>
      rw [hpa] at h
      simp only [Bool.false_eq_true, if_false] at h
      rw [List.filterMap_cons, hnone a hpa, ih h]

theorem filterMap_singleton_of_filter {α β : Type} (f : α → Option β)
    (pred : α → Bool) (g : α → β)
    (hsome : ∀ a, pred a = true → f a = some (g a))
    (hnone : ∀ a, pred a = false → f a = none) :
    ∀ (l : List α) (p : α), l.filter pred = [p] → l.filterMap f = [g p] := by
  intro l
  induction l with
  | nil => intro p h; simp at h
  | cons a t ih =>
    intro p h
    rw [List.filter_cons] at h
    cases hpa : pred a with
    | true =>
      rw [hpa] at h
      simp only [if_pos] at h
      obtain ⟨rfl, ht⟩ := List.cons_eq_cons.mp h
      rw [List.filterMap_cons, hsome a hpa,
        filterMap_nil_of_filter_nil f pred hnone t ht]
    | false =>
      rw [hpa] at h
      simp only [Bool.false_eq_true, if_false] at h
      rw [List.filterMap_cons, hnone a hpa, ih p h]

theorem subset_iff_all_mem (technologies stack : List String) :
    ((technologies.map pyLower).toFinset ⊆ (stack.map pyLower).toFinset)
      ↔ (∀ t ∈ technologies, pyLower t ∈ stack.map pyLower) := by
  simp [Finset.subset_iff, List.mem_toFinset]

/-- C9: under `match_all=true`, a project appears in the results iff every
searched technology appears case-insensitively in its tech stack, with
`matched_count` equal to the number of distinct lowercased searched
technologies; consequently, over a knowledge base in which exactly one
project stacks both React and Python, the search for
`["React", "Python"]` with `match_all=true` returns exactly that project
with `matched_count = 2`. -/
theorem search_tech_stack_match_all :
    (∀ (technologies : List String) (projects : List Project)
       (p : Project) (c : Nat),
      ((p, c) ∈ searchTechStack technologies true projects) ↔
        (p ∈ projects
          ∧ (∀ t ∈ technologies, pyLower t ∈ p.techStack.map pyLower)
          ∧ c = ((technologies.map pyLower).toFinset).card))
  ∧ (∀ (projects : List Project) (p : Project),
      projects.filter (fun q => decide ("react" ∈ q.techStack.map pyLower) &&
          decide ("python" ∈ q.techStack.map pyLower)) = [p] →
      searchTechStack ["React", "Python"] true projects = [(p, 2)]) := by
  constructor
  · intro technologies projects p c
    rw [searchTechStack]
    rw [(List.mergeSort_perm _ _).mem_iff, List.mem_filterMap]
    simp only [if_pos]
    constructor
    · rintro ⟨a, ha, hfa⟩
      by_cases hcond : ((technologies.map pyLower).toFinset ∩
          (a.techStack.map pyLower).toFinset = (technologies.map pyLower).toFinset)
      · rw [if_pos hcond] at hfa
        obtain ⟨rfl, rfl⟩ := Prod.mk.injEq .. ▸ Option.some.inj hfa
        exact ⟨ha, (subset_iff_all_mem _ _).mp (Finset.inter_eq_left.mp hcond),
          by rw [hcond]⟩
      · rw [if_neg hcond] at hfa
        exact absurd hfa (by simp)
    · rintro ⟨hp, hall, rfl⟩
      refine ⟨p, hp, ?_⟩
      have hcond := Finset.inter_eq_left.mpr ((subset_iff_all_mem _ _).mpr hall)
      rw [if_pos hcond, hcond]
  · intro projects p hfilter
    rw [searchTechStack]
    rw [filterMap_singleton_of_filter _
      (fun q => decide ("react" ∈ q.techStack.map pyLower) &&
        decide ("python" ∈ q.techStack.map pyLower))
      (fun q => (q, 2)) ?hsome ?hnone projects p hfilter]
    · exact List.mergeSort_singleton _
    case hsome =>
      intro a hpa
      simp only [Bool.and_eq_true, decide_eq_true_eq] at hpa
      have hsub : ((["React", "Python"].map pyLower).toFinset :
          Finset String) ⊆ (a.techStack.map pyLower).toFinset := by
        rw [subset_iff_all_mem]
        intro t ht
        simp only [List.mem_cons, List.not_mem_nil, or_false] at ht
        rcases ht with rfl | rfl
        · exact hpa.1
        · exact hpa.2
      have hcond := Finset.inter_eq_left.mpr hsub
      have hcard : ((["React", "Python"].map pyLower).toFinset :
          Finset String).card = 2 := by decide
      simp only [eq_self_iff_true, if_true]
      rw [if_pos hcond, hcond, hcard]
    case hnone =>
      intro a hpa
      have hneq : ((["React", "Python"].map pyLower).toFinset :
          Finset String) ∩ (a.techStack.map pyLower).toFinset
            ≠ (["React", "Python"].map pyLower).toFinset := by
        intro hcond
        have hsub := Finset.inter_eq_left.mp hcond
        rw [subset_iff_all_mem] at hsub
        have h1 : "react" ∈ List.map pyLower a.techStack :=
          hsub "React" (by simp)
        have h2 : "python" ∈ List.map pyLower a.techStack :=
          hsub "Python" (by simp)
        simp [h1, h2] at hpa
      simp only [eq_self_iff_true, if_true]
      rw [if_neg hneq]

/-- Witness for C9: a three-project knowledge base in which exactly one
project stacks both React and Python. -/
theorem search_tech_stack_match_all_witness :
    (([⟨"PRJ-002", "Mobile Banking", ["Flutter", "Firebase"]⟩,
       ⟨"PRJ-001", "Shop Platform", ["React", "Python", "PostgreSQL"]⟩,
       ⟨"PRJ-003", "ML Pipeline", ["Python", "TensorFlow"]⟩] :
        List Project).filter
        (fun q => decide ("react" ∈ q.techStack.map pyLower) &&
          decide ("python" ∈ q.techStack.map pyLower))
      = [⟨"PRJ-001", "Shop Platform", ["React", "Python", "PostgreSQL"]⟩])
  ∧ searchTechStack ["React", "Python"] true
      [⟨"PRJ-002", "Mobile Banking", ["Flutter", "Firebase"]⟩,
       ⟨"PRJ-001", "Shop Platform", ["React", "Python", "PostgreSQL"]⟩,
       ⟨"PRJ-003", "ML Pipeline", ["Python", "TensorFlow"]⟩]
      = [(⟨"PRJ-001", "Shop Platform", ["React", "Python", "PostgreSQL"]⟩, 2)] :=
  ⟨by decide,
   search_tech_stack_match_all.2
     [⟨"PRJ-002", "Mobile Banking", ["Flutter", "Firebase"]⟩,
      ⟨"PRJ-001", "Shop Platform", ["React", "Python", "PostgreSQL"]⟩,
      ⟨"PRJ-003", "ML Pipeline", ["Python", "TensorFlow"]⟩]
     ⟨"PRJ-001", "Shop Platform", ["React", "Python", "PostgreSQL"]⟩
     (by decide)⟩
